import Mathlib

/-
Verification of the feature-flag client in src/feature_flag_client.py
(class FeatureFlagClient) against its natural-language specification.

The Python values that flow through the client (defaults, assignment ids,
JSON field values) are modelled by the inductive `PyVal`; the injected
httpx collaborator is modelled by a pure function from requests to
responses; logging is modelled by an explicit log trace; a raised Python
exception is modelled by `Except.error`.  `json.loads` on the response
text is abstracted by carrying the parse outcome in the response model:
a body is either `notJson raw` (json.loads raises a decode error on the
raw text) or `jsonOf obj` (json.loads yields the JSON object `obj`,
whose top-level fields are scalar-or-null values).
-/

namespace FeatureFlag

/-- Model of the Python values relevant to the client: `None`, booleans,
strings and integers (integers stand in for any further non-boolean,
non-string value a caller might pass as a default or assignment id). -/
inductive PyVal where
  | none
  | bool (b : Bool)
  | str (s : String)
  | int (n : Int)
  deriving DecidableEq, Repr

/-- Model of Python `isinstance(v, bool)`. -/
def PyVal.isBool : PyVal → Bool
  | .bool _ => true
  | _ => false

/-- Model of Python `v is None`. -/
def PyVal.isNone : PyVal → Bool
  | .none => true
  | _ => false

/-- Model of Python `isinstance(v, str)`. -/
def PyVal.isStr : PyVal → Bool
  | .str _ => true
  | _ => false

/-- Model of Python `str(v)`: `str(None)` is "None", `str(True)` is
"True", `str(False)` is "False", a string is itself, an int its decimal
form. -/
def pyStr : PyVal → String
  | .none => "None"
  | .bool true => "True"
  | .bool false => "False"
  | .str s => s
  | .int n => toString n

/-- Model of the body of an HTTP response together with the outcome of
`json.loads(response.text)`: `notJson raw` means the text `raw` is not
valid JSON (json.loads raises), `jsonOf obj` means the text parses to
the JSON object `obj`, modelled as an association list from field names
to scalar-or-null values. -/
inductive BodyText where
  | notJson (raw : String)
  | jsonOf (obj : List (String × PyVal))
  deriving DecidableEq, Repr

/-- Model of an httpx response: status code, body text (with its parse
outcome) and the raw content used for diagnostics. -/
structure Response where
  status_code : Nat
  text : BodyText
  content : String
  deriving DecidableEq, Repr

/-- Model of one POST request issued through the injected httpx client:
the URL, the JSON body (association list) and the headers. -/
structure Request where
  url : String
  json : List (String × PyVal)
  headers : List (String × String)
  deriving DecidableEq, Repr

/-- Model of a Python exception escaping the client: a `TypeError` with
its message, or the `json.JSONDecodeError` raised by `json.loads` on the
given raw text. -/
inductive PyError where
  | typeError (msg : String)
  | jsonDecodeError (raw : String)
  deriving DecidableEq, Repr

/-- Severity of a call to the ambient `logging` module. -/
inductive LogLevel where
  | error
  | info
  deriving DecidableEq, Repr

instance : DecidableEq (Except PyError PyVal) := fun a b =>
  match a, b with
  | .ok x, .ok y => if h : x = y then .isTrue (by rw [h]) else .isFalse (by simp [h])
  | .error x, .error y => if h : x = y then .isTrue (by rw [h]) else .isFalse (by simp [h])
  | .ok _, .error _ => .isFalse (by simp)
  | .error _, .ok _ => .isFalse (by simp)

/-- Observable outcome of one evaluation call: the POST requests issued
through the injected client (in order), the log records emitted (in
order, with severity), and the result — `Except.ok v` when the Python
call returns the value `v`, `Except.error e` when it raises. -/
structure EvalOut where
  requests : List Request
  logs : List (LogLevel × String)
  result : Except PyError PyVal
  deriving DecidableEq, Repr

/-- Model of `FeatureFlagClient.__init__` state: the injected httpx
client (modelled as a pure request-to-response function describing the
server behaviour for this call) and the current environment string; both
are stored at construction and never reassigned anywhere in the class. -/
structure FeatureFlagClient where
  client : Request → Response
  curr_env : String

/-- Model of `FeatureFlagClient._get_basic_json_data` (source lines
146-160): the body is a dict literal whose only content is the comment
"Some JSON data", i.e. the empty dict; the `assignment_id` argument is
not used. -/
def _get_basic_json_data (_self : FeatureFlagClient) (_assignment_id : PyVal) :
    List (String × PyVal) :=
  []

/-- Model of `FeatureFlagClient._evaluate_feature_flag_variation`
(source lines 77-144).  The URL is built from the flag key and the
environment; the JSON body merges `_get_basic_json_data` with the
`defaultValue` field holding `str(default_value)`; one POST is issued.
On a 200 status the source first runs `json.loads(response.text)` (line
109) and then, at line 110, evaluates `response["flagValue"]` — it
subscripts the httpx `Response` object, not the parsed body
`response_text`.  `httpx.Response` defines no `__getitem__`, so Python
raises `TypeError` there, and the branch logic of source lines 111-135
(flag-not-found fallback with an error log, null-payload fallback with
an info log, valid-value return with an info log) is unreachable on
every 200 response.  On a non-200 status the source logs one
error-severity message naming the default and the raw content and
returns the default. -/
def _evaluate_feature_flag_variation (self : FeatureFlagClient) (flag_key : String)
    (default_value : PyVal) (assignment_id : PyVal) : EvalOut :=
  let url := "/api/flags/" ++ flag_key ++ "/env/" ++ self.curr_env ++ "/users/"
  let basic_json_data := _get_basic_json_data self assignment_id
  let headers := [("Content-Type", "application/json")]
  let json_data := basic_json_data ++ [("defaultValue", PyVal.str (pyStr default_value))]
  let response := self.client ⟨url, json_data, headers⟩
  if response.status_code = 200 then
    match response.text with
    | .notJson raw =>
        { requests := [⟨url, json_data, headers⟩]
          logs := []
          result := .error (.jsonDecodeError raw) }
    | .jsonOf _response_text =>
        { requests := [⟨url, json_data, headers⟩]
          logs := []
          result := .error (.typeError "\x27Response\x27 object is not subscriptable") }
  else
    { requests := [⟨url, json_data, headers⟩]
      logs := [(LogLevel.error,
        "Failed to evaluate feature flag variation. Using the default_value="
          ++ pyStr default_value ++ ". Error message: " ++ response.content ++ ". ")]
      result := .ok default_value }

/-- Model of `FeatureFlagClient.evaluate_boolean_variation` (source
lines 27-50), in state-passing style: the second component is the
receiver's state after the call; the method body contains no assignment
to `self`, so the state is returned unchanged.  If the default is a bool
or None the call delegates to `_evaluate_feature_flag_variation`;
otherwise it raises TypeError before any request is issued. -/
def evaluate_boolean_variation (self : FeatureFlagClient) (flag_key : String)
    (default_value : PyVal) (assignment_id : PyVal) : EvalOut × FeatureFlagClient :=
  if default_value.isBool || default_value.isNone then
    (_evaluate_feature_flag_variation self flag_key default_value assignment_id, self)
  else
    ({ requests := []
       logs := []
       result := .error (.typeError "\x27default_value\x27 must be None or a boolean") },
     self)

/-- Model of `FeatureFlagClient.evaluate_string_variation` (source lines
52-75), in state-passing style as above.  If the default is a str or
None the call delegates to `_evaluate_feature_flag_variation`; otherwise
it raises TypeError (whose message says "non-empty string" although the
check only tests str-or-None) before any request is issued. -/
def evaluate_string_variation (self : FeatureFlagClient) (flag_key : String)
    (default_value : PyVal) (assignment_id : PyVal) : EvalOut × FeatureFlagClient :=
  if default_value.isStr || default_value.isNone then
    (_evaluate_feature_flag_variation self flag_key default_value assignment_id, self)
  else
    ({ requests := []
       logs := []
       result := .error (.typeError "\x27default_value\x27 must be a non-empty string") },
     self)

/-- The single POST request that `_evaluate_feature_flag_variation`
builds from its arguments (source lines 96-106): URL from the template
with flag key and environment as path components, body holding only the
`defaultValue` field (since `_get_basic_json_data` yields the empty
dict), and the JSON content-type header. -/
def built_request (self : FeatureFlagClient) (flag_key : String)
    (default_value : PyVal) : Request :=
  { url := "/api/flags/" ++ flag_key ++ "/env/" ++ self.curr_env ++ "/users/"
    json := [("defaultValue", PyVal.str (pyStr default_value))]
    headers := [("Content-Type", "application/json")] }

/-- Every call to the internal evaluation routine issues exactly the one
built request, whatever the server answers. -/
theorem requests_eq (self : FeatureFlagClient) (flag_key : String)
    (default_value assignment_id : PyVal) :
    (_evaluate_feature_flag_variation self flag_key default_value assignment_id).requests
      = [built_request self flag_key default_value] := by
  simp only [_evaluate_feature_flag_variation]
  split
  · split <;> rfl
  · rfl

/-- Concrete evaluator whose injected client always answers HTTP 200
with a body that parses to flagValue "v1" and payload true. -/
def server200v1 : FeatureFlagClient :=
  ⟨fun _ => ⟨200, .jsonOf [("flagValue", .str "v1"), ("payload", .bool true)], "ok"⟩, "dev"⟩

/-- Concrete evaluator whose injected client always answers HTTP 200
with a body that parses to flagValue null and payload null. -/
def server200nulls : FeatureFlagClient :=
  ⟨fun _ => ⟨200, .jsonOf [("flagValue", PyVal.none), ("payload", PyVal.none)], "nulls"⟩, "dev"⟩

/-- Concrete evaluator whose injected client always answers HTTP 503
with raw body "server error". -/
def server503 : FeatureFlagClient :=
  ⟨fun _ => ⟨503, .notJson "server error", "server error"⟩, "dev"⟩

/-- Concrete evaluator whose injected client always answers HTTP 200
with a body that is not valid JSON. -/
def server200bad : FeatureFlagClient :=
  ⟨fun _ => ⟨200, .notJson "oops", "oops"⟩, "dev"⟩

/-- On a 200 status the internal routine never returns a value: whatever
the body is, a Python exception propagates — the decode error when the
body is not valid JSON, otherwise the TypeError raised by source line
110 when it subscripts the httpx Response object. -/
theorem result_error_of_200 (self : FeatureFlagClient) (flag_key : String)
    (default_value assignment_id : PyVal)
    (h200 : (self.client (built_request self flag_key default_value)).status_code = 200) :
    (_evaluate_feature_flag_variation self flag_key default_value assignment_id).result
      = (match (self.client (built_request self flag_key default_value)).text with
         | .notJson raw => .error (.jsonDecodeError raw)
         | .jsonOf _ => .error (.typeError "\x27Response\x27 object is not subscriptable")) := by
  simp only [built_request] at h200
  simp only [_evaluate_feature_flag_variation, _get_basic_json_data, List.nil_append,
    built_request]
  rw [if_pos h200]
  split <;> rfl

/-- C1: the claim says that on HTTP 200 with non-null flagValue "v1" and
non-null payload true, evaluate_boolean_variation returns the payload
regardless of the default, both fields being read from the parsed body.
On the source this fails: line 110 reads flagValue by subscripting the
httpx Response object instead of the parsed body, so the call raises
TypeError and never returns the payload.  This theorem evaluates the
model at the failing input (flag "my-flag", default false, server
answering 200 with flagValue "v1" and payload true). -/
theorem C1_bug_200_payload_raises :
    (evaluate_boolean_variation server200v1 "my-flag" (.bool false) .none).1.result
      = .error (.typeError "\x27Response\x27 object is not subscriptable") := rfl

/-- C3: the claim says that on HTTP 200 with a null flag-found indicator
the result is the default and an ERROR log naming the flag is emitted
(and, with a null payload, the default with an INFO log).  On the source
both branches are unreachable: line 110 raises TypeError before them, so
at the failing input (200 with flagValue null and payload null, default
false) the call raises and emits no log at all. -/
theorem C3_bug_null_flag_raises_no_log :
    (evaluate_boolean_variation server200nulls "my-flag" (.bool false) .none).1.result
        = .error (.typeError "\x27Response\x27 object is not subscriptable")
    ∧ (evaluate_boolean_variation server200nulls "my-flag" (.bool false) .none).1.logs
        = [] :=
  ⟨rfl, rfl⟩

/-- C9: the claim says that with default None every fallback branch
returns None.  On the source only the non-200 branch does (second
conjunct); the two 200 fallback branches are unreachable because line
110 raises TypeError first, so at the failing input (default None,
server answering 200 with flagValue null) the call raises instead of
returning None (first conjunct). -/
theorem C9_bug_none_default_raises_on_200 :
    (evaluate_boolean_variation server200nulls "f" PyVal.none PyVal.none).1.result
        = .error (.typeError "\x27Response\x27 object is not subscriptable")
    ∧ (evaluate_string_variation server503 "f" PyVal.none PyVal.none).1.result
        = .ok PyVal.none :=
  ⟨rfl, rfl⟩

/-- C2 counterexample: the claim says the assignment identifier is
passed through into the JSON request payload, the body depending on it.
At a concrete input the issued request body holds only the defaultValue
field, and two calls differing only in the assignment identifier issue
identical requests. -/
theorem C2_counterexample :
    (_evaluate_feature_flag_variation server503 "k" (.bool true) (.str "user-1")).requests
        = [⟨"/api/flags/k/env/dev/users/",
            [("defaultValue", PyVal.str "True")],
            [("Content-Type", "application/json")]⟩]
    ∧ (_evaluate_feature_flag_variation server503 "k" (.bool true) (.str "user-1")).requests
        = (_evaluate_feature_flag_variation server503 "k" (.bool true) (.str "user-2")).requests :=
  ⟨rfl, rfl⟩

/-- C2 amended: the assignment identifier is accepted by every call and
forwarded to _get_basic_json_data, but that helper returns the empty
dict, so the request issued is the same whatever the identifier and its
body holds only the defaultValue field. -/
theorem C2_amended_body_ignores_assignment (self : FeatureFlagClient) (flag_key : String)
    (default_value a1 a2 : PyVal) :
    (_evaluate_feature_flag_variation self flag_key default_value a1).requests
        = (_evaluate_feature_flag_variation self flag_key default_value a2).requests
    ∧ (_evaluate_feature_flag_variation self flag_key default_value a1).requests
        = [built_request self flag_key default_value]
    ∧ _get_basic_json_data self a1 = [] := by
  refine ⟨?_, requests_eq self flag_key default_value a1, rfl⟩
  rw [requests_eq, requests_eq]

/-- C4: a boolean call whose default is neither a bool nor None raises
TypeError with no request issued, and a string call whose default is
neither a str nor None raises TypeError with no request issued. -/
theorem C4_invalid_default_no_request (self : FeatureFlagClient) (flag_key : String)
    (default_value assignment_id : PyVal) :
    (default_value.isBool = false → default_value.isNone = false →
      evaluate_boolean_variation self flag_key default_value assignment_id
        = ({ requests := []
             logs := []
             result := .error (.typeError "\x27default_value\x27 must be None or a boolean") },
           self))
    ∧ (default_value.isStr = false → default_value.isNone = false →
      evaluate_string_variation self flag_key default_value assignment_id
        = ({ requests := []
             logs := []
             result := .error (.typeError "\x27default_value\x27 must be a non-empty string") },
           self)) := by
  constructor
  · intro hb hn
    simp [evaluate_boolean_variation, hb, hn]
  · intro hs hn
    simp [evaluate_string_variation, hs, hn]

/-- C4 witness: with the non-bool, non-str default 3 both guards fire at
a concrete input and no request is issued. -/
theorem C4_invalid_default_no_request_witness :
    evaluate_boolean_variation server503 "k" (.int 3) .none
        = ({ requests := []
             logs := []
             result := .error (.typeError "\x27default_value\x27 must be None or a boolean") },
           server503)
    ∧ evaluate_string_variation server503 "k" (.int 3) .none
        = ({ requests := []
             logs := []
             result := .error (.typeError "\x27default_value\x27 must be a non-empty string") },
           server503) :=
  ⟨(C4_invalid_default_no_request server503 "k" (.int 3) .none).1 rfl rfl,
   (C4_invalid_default_no_request server503 "k" (.int 3) .none).2 rfl rfl⟩

/-- C5: on any non-200 status the call returns the default and emits one
error-severity log whose message names the failure, the stringified
default in use, and the raw response content. -/
theorem C5_http_error_falls_back (self : FeatureFlagClient) (flag_key : String)
    (default_value assignment_id : PyVal)
    (h : (self.client (built_request self flag_key default_value)).status_code ≠ 200) :
    _evaluate_feature_flag_variation self flag_key default_value assignment_id
      = { requests := [built_request self flag_key default_value]
          logs := [(LogLevel.error,
            "Failed to evaluate feature flag variation. Using the default_value="
              ++ pyStr default_value ++ ". Error message: "
              ++ (self.client (built_request self flag_key default_value)).content ++ ". ")]
          result := .ok default_value } := by
  simp only [built_request] at h
  simp only [_evaluate_feature_flag_variation, _get_basic_json_data, List.nil_append,
    built_request]
  rw [if_neg h]

/-- C5 witness: a concrete 503 answer with raw body "server error" and
default true yields the default and the full error log message. -/
theorem C5_http_error_falls_back_witness :
    _evaluate_feature_flag_variation server503 "k" (.bool true) .none
      = { requests := [built_request server503 "k" (.bool true)]
          logs := [(LogLevel.error,
            "Failed to evaluate feature flag variation. Using the default_value=True. Error message: server error. ")]
          result := .ok (.bool true) } :=
  C5_http_error_falls_back server503 "k" (.bool true) .none (by decide)

/-- C6: every call issues exactly one request whose JSON body carries
the defaultValue field holding the Python stringification of the
default; in particular the default true is sent as "True" and an absent
default as "None". -/
theorem C6_defaultValue_always_sent (self : FeatureFlagClient) (flag_key : String)
    (default_value assignment_id : PyVal) :
    (_evaluate_feature_flag_variation self flag_key default_value assignment_id).requests
        = [built_request self flag_key default_value]
    ∧ (built_request self flag_key default_value).json
        = [("defaultValue", PyVal.str (pyStr default_value))]
    ∧ pyStr (.bool true) = "True"
    ∧ pyStr PyVal.none = "None" :=
  ⟨requests_eq self flag_key default_value assignment_id, rfl, rfl, rfl⟩

/-- C7: every string default, the empty string included, passes the
precondition of evaluate_string_variation — the call delegates to the
internal routine, issues the request, and never produces the guard's
"non-empty string" TypeError, the message's wording notwithstanding. -/
theorem C7_string_default_accepted (self : FeatureFlagClient) (flag_key : String)
    (s : String) (assignment_id : PyVal) :
    evaluate_string_variation self flag_key (.str s) assignment_id
        = (_evaluate_feature_flag_variation self flag_key (.str s) assignment_id, self)
    ∧ (evaluate_string_variation self flag_key (.str s) assignment_id).1.requests
        = [built_request self flag_key (.str s)]
    ∧ (evaluate_string_variation self flag_key (.str s) assignment_id).1.result
        ≠ .error (.typeError "\x27default_value\x27 must be a non-empty string") := by
  refine ⟨rfl, requests_eq self flag_key (.str s) assignment_id, ?_⟩
  show (_evaluate_feature_flag_variation self flag_key (.str s) assignment_id).result ≠ _
  simp only [_evaluate_feature_flag_variation]
  split
  · split <;> simp
  · simp

/-- C8: on a 200 response whose body is not valid JSON the decode error
propagates to the caller, and more generally on any 200 response an
exception propagates — there is never a fallback to the default on the
200 path (on a JSON body the propagated exception is the TypeError of
source line 110, which fires before any field lookup). -/
theorem C8_malformed_200_propagates (self : FeatureFlagClient) (flag_key : String)
    (default_value assignment_id : PyVal)
    (h200 : (self.client (built_request self flag_key default_value)).status_code = 200) :
    (∃ e, (_evaluate_feature_flag_variation self flag_key default_value assignment_id).result
        = .error e)
    ∧ ∀ raw, (self.client (built_request self flag_key default_value)).text = .notJson raw →
        (_evaluate_feature_flag_variation self flag_key default_value assignment_id).result
          = .error (.jsonDecodeError raw) := by
  have h := result_error_of_200 self flag_key default_value assignment_id h200
  constructor
  · rw [h]
    split
    · exact ⟨_, rfl⟩
    · exact ⟨_, rfl⟩
  · intro raw hraw
    rw [h, hraw]

/-- C8 witness: a concrete 200 answer whose body "oops" is not valid
JSON makes the decode error propagate with no fallback. -/
theorem C8_malformed_200_propagates_witness :
    (∃ e, (_evaluate_feature_flag_variation server200bad "k" (.bool false) .none).result
        = .error e)
    ∧ (_evaluate_feature_flag_variation server200bad "k" (.bool false) .none).result
        = .error (.jsonDecodeError "oops") :=
  ⟨(C8_malformed_200_propagates server200bad "k" (.bool false) .none rfl).1,
   (C8_malformed_200_propagates server200bad "k" (.bool false) .none rfl).2 "oops" rfl⟩

/-- C10: no call mutates the evaluator state — the environment string
and the injected client come back unchanged — and repeating a call on
the state left by a first identical call (same arguments, same server
behaviour) yields the identical outcome. -/
theorem C10_stateless_idempotent (self : FeatureFlagClient) (flag_key : String)
    (default_value assignment_id : PyVal) :
    (evaluate_boolean_variation self flag_key default_value assignment_id).2 = self
    ∧ (evaluate_string_variation self flag_key default_value assignment_id).2 = self
    ∧ evaluate_boolean_variation
        (evaluate_boolean_variation self flag_key default_value assignment_id).2
        flag_key default_value assignment_id
      = evaluate_boolean_variation self flag_key default_value assignment_id
    ∧ evaluate_string_variation
        (evaluate_string_variation self flag_key default_value assignment_id).2
        flag_key default_value assignment_id
      = evaluate_string_variation self flag_key default_value assignment_id := by
  have hb : (evaluate_boolean_variation self flag_key default_value assignment_id).2 = self := by
    simp only [evaluate_boolean_variation]
    split <;> rfl
  have hs : (evaluate_string_variation self flag_key default_value assignment_id).2 = self := by
    simp only [evaluate_string_variation]
    split <;> rfl
  exact ⟨hb, hs, by rw [hb], by rw [hs]⟩

end FeatureFlag
